import Mathlib

/-!
Verification of the 2D canvas engine in `src/engine.js`.

Coordinates, sizes and radii are JavaScript numbers; they are modelled as
rationals (`ℚ`).  `Math.sqrt` is modelled as `Real.sqrt` on the cast of the
rational operand.  The `Input` mouse state, the shape objects, the collision
predicates, the type-pair dispatcher `checkCollision` and the `Engine` object
list operations are embedded below, one Lean definition per JS function.
-/

/-- Mouse sub-state of `Input`: `this.mouse = { x, y, down, clicked }`. -/
structure Mouse where
  x : ℚ
  y : ℚ
  down : Bool
  clicked : Bool
deriving DecidableEq, Repr

/-- State of an `Input` instance: held keys plus the mouse record. -/
structure InputState where
  keys : List String
  mouse : Mouse
deriving DecidableEq, Repr

/-- DOM events the `Input` constructor listens to.  `mousemove` carries the
canvas-relative coordinates the handler computes. -/
inductive InputEvent where
  | keydown (k : String)
  | keyup (k : String)
  | mousemove (x y : ℚ)
  | mousedown
  | mouseup
deriving DecidableEq, Repr

/-- Effect of one DOM event on the input state, per the handlers registered in
the `Input` constructor: `keydown` adds to the key set, `keyup` deletes,
`mousemove` updates coordinates, `mousedown` sets `down` and `clicked`,
`mouseup` clears `down` only. -/
def applyEvent (s : InputState) : InputEvent → InputState
  | .keydown k => { s with keys := if k ∈ s.keys then s.keys else k :: s.keys }
  | .keyup k => { s with keys := s.keys.filter (fun k2 => k2 ≠ k) }
  | .mousemove x y => { s with mouse := { s.mouse with x := x, y := y } }
  | .mousedown => { s with mouse := { s.mouse with down := true, clicked := true } }
  | .mouseup => { s with mouse := { s.mouse with down := false } }

/-- Source `Input.isKeyDown(key)`. -/
def isKeyDown (s : InputState) (k : String) : Bool :=
  s.keys.contains k

/-- Source `Input.isMouseDown()`. -/
def isMouseDown (s : InputState) : Bool :=
  s.mouse.down

/-- Source `Input.wasMouseClicked()`: reads `this.mouse.clicked`. -/
def wasMouseClicked (s : InputState) : Bool :=
  s.mouse.clicked

/-- Source `Input.wasMouseClicked()` viewed as an operation returning its result and
the (unchanged) state: the method only reads, it mutates nothing. -/
def wasMouseClickedOp (s : InputState) : Bool × InputState :=
  (s.mouse.clicked, s)

/-- Source `Input.consumeClick()`: sets `this.mouse.clicked = false`. -/
def consumeClick (s : InputState) : InputState :=
  { s with mouse := { s.mouse with clicked := false } }

/-- Argument of `Input.isMouseInside(obj)`: any object with `x`, `y` and
possibly-absent `width` / `height` fields (`none` models `undefined`, so that
`obj.width || 0` becomes `Option.getD 0`). -/
structure MouseTarget where
  x : ℚ
  y : ℚ
  width : Option ℚ
  height : Option ℚ
deriving DecidableEq, Repr

/-- Source `Input.isMouseInside(obj)`: inclusive bounds test against `obj.x`,
`obj.y`, `obj.width || 0`, `obj.height || 0`. -/
def isMouseInside (s : InputState) (obj : MouseTarget) : Bool :=
  decide (obj.x ≤ s.mouse.x) &&
  decide (s.mouse.x ≤ obj.x + obj.width.getD 0) &&
  decide (obj.y ≤ s.mouse.y) &&
  decide (s.mouse.y ≤ obj.y + obj.height.getD 0)

/-- Data of a `Button` instance: the `Rectangle` fields it inherits plus its
label, and whether `this.callback` is set (the truthiness test
`if (this.callback)`). -/
structure ButtonT where
  x : ℚ
  y : ℚ
  width : ℚ
  height : ℚ
  label : String
  hasCallback : Bool
deriving DecidableEq, Repr

/-- View of a button as an `isMouseInside` argument: its `width` / `height`
fields are present. -/
def buttonTarget (b : ButtonT) : MouseTarget :=
  ⟨b.x, b.y, some b.width, some b.height⟩

/-- Source `Button.update(dt, input)`: if a click is pending and the mouse is inside
the bounds, invoke the callback when present and consume the click.  Returns
the number of callback invocations together with the input state after the
call. -/
def buttonUpdate (b : ButtonT) (inp : InputState) : Nat × InputState :=
  if wasMouseClicked inp && isMouseInside inp (buttonTarget b) then
    ((if b.hasCallback then 1 else 0), consumeClick inp)
  else
    (0, inp)

/-- Field data of a `Rectangle` used by the collision predicates. -/
structure RectT where
  x : ℚ
  y : ℚ
  width : ℚ
  height : ℚ
deriving DecidableEq, Repr

/-- Field data of a `Circle` used by the collision predicates. -/
structure CircleT where
  x : ℚ
  y : ℚ
  radius : ℚ
deriving DecidableEq, Repr

/-- Source `rectRectCollision(a, b)`: strict axis-aligned overlap test. -/
def rectRectCollision (a b : RectT) : Prop :=
  a.x < b.x + b.width ∧
  a.x + a.width > b.x ∧
  a.y < b.y + b.height ∧
  a.y + a.height > b.y

instance (a b : RectT) : Decidable (rectRectCollision a b) := by
  unfold rectRectCollision; infer_instance

/-- Source `circleCircleCollision(a, b)`: `Math.sqrt(dx*dx + dy*dy) < a.radius +
b.radius`, with `Math.sqrt` modelled as `Real.sqrt` of the cast operand. -/
def circleCircleCollision (a b : CircleT) : Prop :=
  Real.sqrt (((a.x - b.x) * (a.x - b.x) + (a.y - b.y) * (a.y - b.y) : ℚ) : ℝ)
    < ((a.radius + b.radius : ℚ) : ℝ)

/-- Rational characterisation of `circleCircleCollision`: since the distance
is a square root, it is below the radius sum iff that sum is positive and the
squared distance is below its square. -/
theorem circleCircleCollision_iff (a b : CircleT) :
    circleCircleCollision a b ↔
      0 < a.radius + b.radius ∧
        (a.x - b.x) * (a.x - b.x) + (a.y - b.y) * (a.y - b.y)
          < (a.radius + b.radius) * (a.radius + b.radius) := by
  unfold circleCircleCollision
  constructor
  · intro h
    have hr : (0 : ℝ) < ((a.radius + b.radius : ℚ) : ℝ) :=
      lt_of_le_of_lt (Real.sqrt_nonneg _) h
    have hr2 : (0 : ℚ) < a.radius + b.radius := by exact_mod_cast hr
    refine ⟨hr2, ?_⟩
    have h2 := (Real.sqrt_lt' hr).mp h
    have h3 : (((a.x - b.x) * (a.x - b.x) + (a.y - b.y) * (a.y - b.y) : ℚ) : ℝ)
        < (((a.radius + b.radius) * (a.radius + b.radius) : ℚ) : ℝ) := by
      push_cast
      push_cast at h2
      nlinarith [h2]
    exact_mod_cast h3
  · rintro ⟨hr, hlt⟩
    have hr' : (0 : ℝ) < ((a.radius + b.radius : ℚ) : ℝ) := by exact_mod_cast hr
    refine (Real.sqrt_lt' hr').mpr ?_
    have hlt' : (((a.x - b.x) * (a.x - b.x) + (a.y - b.y) * (a.y - b.y) : ℚ) : ℝ)
        < (((a.radius + b.radius) * (a.radius + b.radius) : ℚ) : ℝ) := by
      exact_mod_cast hlt
    push_cast at hlt' ⊢
    nlinarith [hlt']

instance (a b : CircleT) : Decidable (circleCircleCollision a b) :=
  decidable_of_iff' _ (circleCircleCollision_iff a b)

/-- Source `rectCircleCollision(rect, circ)`: clamp the circle centre into the
rectangle and compare the squared distance with the squared radius. -/
def rectCircleCollision (rect : RectT) (circ : CircleT) : Prop :=
  let cx := max rect.x (min circ.x (rect.x + rect.width))
  let cy := max rect.y (min circ.y (rect.y + rect.height))
  (circ.x - cx) * (circ.x - cx) + (circ.y - cy) * (circ.y - cy)
    < circ.radius * circ.radius

instance (rect : RectT) (circ : CircleT) : Decidable (rectCircleCollision rect circ) := by
  unfold rectCircleCollision; infer_instance

/-- Concrete runtime type of an engine object, with the fields each class
carries (a `Sprite` gets `width` / `height` from its image; a `Text` has no
size fields; a `Button` has the `Rectangle` fields). -/
inductive Obj where
  | rect (x y width height : ℚ)
  | circle (x y radius : ℚ)
  | sprite (x y width height : ℚ)
  | text (x y : ℚ)
  | button (x y width height : ℚ)
deriving DecidableEq, Repr

/-- Source `instanceof Rectangle`: true for `Rectangle` instances and for `Button`
instances, since `class Button extends Rectangle`. -/
def isRectangleInst : Obj → Bool
  | .rect _ _ _ _ => true
  | .button _ _ _ _ => true
  | _ => false

/-- Source `instanceof Circle`. -/
def isCircleInst : Obj → Bool
  | .circle _ _ _ => true
  | _ => false

/-- Rectangle-field view of an object (the dispatcher only reads it on
arguments that pass an `instanceof Rectangle` test; objects without
`width` / `height` fields read them as 0). -/
def rectOf : Obj → RectT
  | .rect x y w h => ⟨x, y, w, h⟩
  | .button x y w h => ⟨x, y, w, h⟩
  | .sprite x y w h => ⟨x, y, w, h⟩
  | .circle x y _ => ⟨x, y, 0, 0⟩
  | .text x y => ⟨x, y, 0, 0⟩

/-- Circle-field view of an object (only read on arguments that pass an
`instanceof Circle` test). -/
def circleOf : Obj → CircleT
  | .circle x y r => ⟨x, y, r⟩
  | .rect x y _ _ => ⟨x, y, 0⟩
  | .button x y _ _ => ⟨x, y, 0⟩
  | .sprite x y _ _ => ⟨x, y, 0⟩
  | .text x y => ⟨x, y, 0⟩

/-- Source `checkCollision(a, b)`: the type-pair dispatcher, with the four
`instanceof` guards in source order and `false` for every other pair. -/
def checkCollision (a b : Obj) : Prop :=
  if isRectangleInst a && isRectangleInst b then
    rectRectCollision (rectOf a) (rectOf b)
  else if isCircleInst a && isCircleInst b then
    circleCircleCollision (circleOf a) (circleOf b)
  else if isRectangleInst a && isCircleInst b then
    rectCircleCollision (rectOf a) (circleOf b)
  else if isCircleInst a && isRectangleInst b then
    rectCircleCollision (rectOf b) (circleOf a)
  else
    False

instance (a b : Obj) : Decidable (checkCollision a b) := by
  unfold checkCollision
  infer_instance

/-- Source `Engine.add(obj)`: `this.objects.push(obj)`. -/
def engineAdd {α : Type} (objs : List α) (o : α) : List α :=
  objs ++ [o]

/-- Source `Engine.remove(obj)`: `indexOf` (first occurrence under reference
equality, modelled by decidable equality on object identities) followed by
`splice(idx, 1)` when the object is present; `findIdx` returns the length
when no element matches, corresponding to `indexOf` returning `-1`. -/
def engineRemove {α : Type} [DecidableEq α] (objs : List α) (o : α) : List α :=
  let idx := objs.findIdx (fun a => a = o)
  if idx = objs.length then objs else objs.eraseIdx idx

/-- Trace of the index pairs `(i, j)` at which `Engine.update` evaluates
`checkCollision(objects[i], objects[j])` on a list of `n` objects: the outer
loop runs `i` over `0 ≤ i < n`, the inner loop runs `j` over `i+1 ≤ j < n`,
and the body evaluates `checkCollision(a, b)` twice, once as the condition of
each of the two `if` statements guarding the `onCollision` callbacks. -/
def pairLoopCalls (n : Nat) : List (Nat × Nat) :=
  (List.range n).flatMap fun i =>
    (List.range' (i + 1) (n - (i + 1))).flatMap fun j => [(i, j), (i, j)]

/-! ### Spec-side definitions used to state the claims -/

/-- Euclidean distance between the centres of two circles, as the spec words
it for the circle-circle predicate. -/
noncomputable def centerDist (a b : CircleT) : ℝ :=
  Real.sqrt (((a.x : ℝ) - (b.x : ℝ)) ^ 2 + ((a.y : ℝ) - (b.y : ℝ)) ^ 2)

/-- Nearest point of a rectangle to a point, obtained by clamping each
coordinate into the rectangle's bounds, as the spec words it for the
rectangle-circle predicate. -/
def nearestPointInRect (rect : RectT) (p : ℚ × ℚ) : ℚ × ℚ :=
  (max rect.x (min p.1 (rect.x + rect.width)),
   max rect.y (min p.2 (rect.y + rect.height)))

/-- Squared Euclidean distance between two points. -/
def sqDist (p q : ℚ × ℚ) : ℚ :=
  (p.1 - q.1) ^ 2 + (p.2 - q.2) ^ 2

/-- Strict axis-aligned overlap of two rectangles, re-derived symmetrically
from the spec: on each axis the left edge of each rectangle lies strictly
before the right edge of the other. -/
def axesOverlapStrict (a b : RectT) : Prop :=
  (a.x < b.x + b.width ∧ b.x < a.x + a.width) ∧
  (a.y < b.y + b.height ∧ b.y < a.y + a.height)

/-! ### Helper lemmas -/

/-- Any input event leaves a set `clicked` flag set: `mousedown` sets it and
no handler other than `consumeClick` clears it. -/
theorem applyEvent_preserves_clicked (s : InputState) (e : InputEvent)
    (h : s.mouse.clicked = true) : (applyEvent s e).mouse.clicked = true := by
  cases e <;> simp [applyEvent, h]

/-- Folding any event list over a state with the `clicked` flag set keeps the
flag set. -/
theorem foldl_applyEvent_preserves_clicked (evts : List InputEvent) (s : InputState)
    (h : s.mouse.clicked = true) :
    (List.foldl applyEvent s evts).mouse.clicked = true := by
  induction evts generalizing s with
  | nil => exact h
  | cons e t ih => exact ih _ (applyEvent_preserves_clicked s e h)

/-- Symmetry of `rectRectCollision`. -/
theorem rectRect_symm (a b : RectT) : rectRectCollision a b ↔ rectRectCollision b a := by
  unfold rectRectCollision
  constructor <;> rintro ⟨h1, h2, h3, h4⟩ <;> exact ⟨h2, h1, h4, h3⟩

/-- Symmetry of `circleCircleCollision`. -/
theorem circleCircle_symm (a b : CircleT) :
    circleCircleCollision a b ↔ circleCircleCollision b a := by
  rw [circleCircleCollision_iff, circleCircleCollision_iff]
  constructor <;> rintro ⟨h1, h2⟩ <;>
    exact ⟨by linarith, by nlinarith⟩

/-- Symmetry of `checkCollision`: every dispatch branch either delegates to a
symmetric predicate or routes the swapped pair through the same predicate
with the same argument order. -/
theorem checkCollision_symm (a b : Obj) : checkCollision a b ↔ checkCollision b a := by
  cases a <;> cases b <;>
    simp only [checkCollision, isRectangleInst, isCircleInst, Bool.and_self,
      Bool.and_true, Bool.true_and, Bool.and_false, Bool.false_and,
      if_true, if_false, ite_true, ite_false] <;>
    first
      | exact Iff.rfl
      | exact rectRect_symm _ _
      | exact circleCircle_symm _ _

/-! ### Claims -/

/-- C6: after a mouse press sets the clicked edge flag, `wasMouseClicked`
returns `true` after any further sequence of input events (queries are pure
reads that do not change the state), until `consumeClick` clears the flag. -/
theorem c6_click_flag_persists_until_consumed (s : InputState) (evts : List InputEvent) :
    (wasMouseClickedOp (List.foldl applyEvent (applyEvent s InputEvent.mousedown) evts)).1
        = true
    ∧ (∀ s2 : InputState, (wasMouseClickedOp s2).2 = s2)
    ∧ (∀ s2 : InputState, wasMouseClicked (consumeClick s2) = false) := by
  refine ⟨?_, fun s2 => rfl, fun s2 => rfl⟩
  exact foldl_applyEvent_preserves_clicked evts _ (by simp [applyEvent])

/-- C7: `circleCircleCollision` holds iff the Euclidean centre distance is
strictly below the radius sum; in particular it fails when the distance
equals the radius sum. -/
theorem c7_circle_collision_iff_dist_lt_radius_sum (a b : CircleT) :
    (circleCircleCollision a b ↔ centerDist a b < ((a.radius + b.radius : ℚ) : ℝ))
    ∧ (centerDist a b = ((a.radius + b.radius : ℚ) : ℝ) → ¬ circleCircleCollision a b) := by
  have harg : (((a.x - b.x) * (a.x - b.x) + (a.y - b.y) * (a.y - b.y) : ℚ) : ℝ)
      = ((a.x : ℝ) - (b.x : ℝ)) ^ 2 + ((a.y : ℝ) - (b.y : ℝ)) ^ 2 := by
    push_cast
    ring
  constructor
  · unfold circleCircleCollision centerDist
    rw [harg]
  · intro heq hcoll
    unfold circleCircleCollision at hcoll
    rw [harg] at hcoll
    unfold centerDist at heq
    rw [heq] at hcoll
    exact lt_irrefl _ hcoll

/-- C7 witness: circles at distance 3 with radii 1 and 2 sit exactly on the
boundary and do not collide. -/
theorem c7_circle_collision_iff_dist_lt_radius_sum_witness :
    centerDist ⟨0, 0, 1⟩ ⟨3, 0, 2⟩ = (((⟨0, 0, 1⟩ : CircleT).radius + (⟨3, 0, 2⟩ : CircleT).radius : ℚ) : ℝ)
    ∧ ¬ circleCircleCollision ⟨0, 0, 1⟩ ⟨3, 0, 2⟩ := by
  have h : centerDist ⟨0, 0, 1⟩ ⟨3, 0, 2⟩
      = (((⟨0, 0, 1⟩ : CircleT).radius + (⟨3, 0, 2⟩ : CircleT).radius : ℚ) : ℝ) := by
    unfold centerDist
    push_cast
    norm_num
    rw [show (9 : ℝ) = 3 ^ 2 by norm_num]
    exact Real.sqrt_sq (by norm_num)
  exact ⟨h, (c7_circle_collision_iff_dist_lt_radius_sum _ _).2 h⟩

/-- C8: `rectCircleCollision` holds iff the squared distance from the circle
centre to the nearest point of the rectangle (the centre clamped into the
bounds) is strictly below the squared radius; at exact equality it reports no
collision. -/
theorem c8_rect_circle_clamped_strict (rect : RectT) (circ : CircleT) :
    (rectCircleCollision rect circ ↔
      sqDist (circ.x, circ.y) (nearestPointInRect rect (circ.x, circ.y))
        < circ.radius ^ 2)
    ∧ (sqDist (circ.x, circ.y) (nearestPointInRect rect (circ.x, circ.y))
        = circ.radius ^ 2 → ¬ rectCircleCollision rect circ) := by
  have hiff : rectCircleCollision rect circ ↔
      sqDist (circ.x, circ.y) (nearestPointInRect rect (circ.x, circ.y))
        < circ.radius ^ 2 := by
    unfold rectCircleCollision sqDist nearestPointInRect
    simp only [pow_two]
  refine ⟨hiff, fun heq hcoll => ?_⟩
  rw [hiff, heq] at hcoll
  exact lt_irrefl _ hcoll

/-- C8 witness: the circle centred at `(15, 5)` with radius 5 has nearest
point `(10, 5)` on the edge of the rectangle `(0, 0, 10, 10)` at distance
exactly 5, and no collision is reported. -/
theorem c8_rect_circle_clamped_strict_witness :
    sqDist (15, 5) (nearestPointInRect ⟨0, 0, 10, 10⟩ (15, 5))
        = (⟨15, 5, 5⟩ : CircleT).radius ^ 2
    ∧ ¬ rectCircleCollision ⟨0, 0, 10, 10⟩ ⟨15, 5, 5⟩ := by
  have h : sqDist ((⟨15, 5, 5⟩ : CircleT).x, (⟨15, 5, 5⟩ : CircleT).y)
      (nearestPointInRect ⟨0, 0, 10, 10⟩ ((⟨15, 5, 5⟩ : CircleT).x, (⟨15, 5, 5⟩ : CircleT).y))
      = (⟨15, 5, 5⟩ : CircleT).radius ^ 2 := by
    norm_num [sqDist, nearestPointInRect]
  exact ⟨h, (c8_rect_circle_clamped_strict ⟨0, 0, 10, 10⟩ ⟨15, 5, 5⟩).2 h⟩

/-- C9: `rectRectCollision` holds iff the bounding boxes overlap strictly on
each axis; rectangles whose edges merely touch do not collide. -/
theorem c9_rect_rect_strict_overlap (a b : RectT) :
    (rectRectCollision a b ↔ axesOverlapStrict a b)
    ∧ (a.x + a.width = b.x → ¬ rectRectCollision a b) := by
  constructor
  · unfold rectRectCollision axesOverlapStrict
    constructor
    · rintro ⟨h1, h2, h3, h4⟩
      exact ⟨⟨h1, h2⟩, ⟨h3, h4⟩⟩
    · rintro ⟨⟨h1, h2⟩, ⟨h3, h4⟩⟩
      exact ⟨h1, h2, h3, h4⟩
  · rintro htouch ⟨h1, h2, h3, h4⟩
    rw [htouch] at h2
    exact lt_irrefl _ h2

/-- C9 witness: `(0,0,5,5)` and `(5,0,5,5)` touch along the edge `x = 5` and
do not collide. -/
theorem c9_rect_rect_strict_overlap_witness :
    (⟨0, 0, 5, 5⟩ : RectT).x + (⟨0, 0, 5, 5⟩ : RectT).width = (⟨5, 0, 5, 5⟩ : RectT).x
    ∧ ¬ rectRectCollision ⟨0, 0, 5, 5⟩ ⟨5, 0, 5, 5⟩ := by
  have h : (⟨0, 0, 5, 5⟩ : RectT).x + (⟨0, 0, 5, 5⟩ : RectT).width
      = (⟨5, 0, 5, 5⟩ : RectT).x := by norm_num
  exact ⟨h, (c9_rect_rect_strict_overlap ⟨0, 0, 5, 5⟩ ⟨5, 0, 5, 5⟩).2 h⟩

/-- C10: collision testing is symmetric: `rectRectCollision` is symmetric in
its two rectangles, and the dispatcher `checkCollision` is symmetric on every
pair of objects. -/
theorem c10_collision_symmetric :
    (∀ a b : RectT, rectRectCollision a b ↔ rectRectCollision b a)
    ∧ (∀ a b : Obj, checkCollision a b ↔ checkCollision b a) :=
  ⟨rectRect_symm, checkCollision_symm⟩

/-- Object whose concrete type takes part in no supported shape pairing:
neither an `instanceof Rectangle` nor an `instanceof Circle`, i.e. exactly
the `Text` and `Sprite` objects. -/
def isUnsupportedShape (o : Obj) : Bool :=
  !(isRectangleInst o || isCircleInst o)

/-- C1 counterexample: the claim says every pair involving a `Button` is
unsupported and yields `false`, but `Button extends Rectangle`, so a button
overlapping a rectangle does collide. -/
theorem c1_button_pair_collides :
    checkCollision (Obj.button 0 0 10 10) (Obj.rect 5 5 10 10) := by
  norm_num [checkCollision, isRectangleInst, isCircleInst, rectOf, rectRectCollision]

/-- C1 (amended): for every pair in which either object is a `Text` or a
`Sprite` (the objects that are neither `Rectangle` nor `Circle` instances),
`checkCollision` returns `false`; `Button`, being an `instanceof Rectangle`,
is dispatched to the rectangle predicates instead. -/
theorem c1_text_sprite_pairs_never_collide (a b : Obj)
    (h : isUnsupportedShape a = true ∨ isUnsupportedShape b = true) :
    ¬ checkCollision a b := by
  cases a <;> cases b <;>
    simp_all [checkCollision, isUnsupportedShape, isRectangleInst, isCircleInst]

/-- C1 witness: a `Text` paired with a `Rectangle` does not collide. -/
theorem c1_text_sprite_pairs_never_collide_witness :
    isUnsupportedShape (Obj.text 0 0) = true
    ∧ ¬ checkCollision (Obj.text 0 0) (Obj.rect 0 0 5 5) :=
  ⟨rfl, c1_text_sprite_pairs_never_collide (Obj.text 0 0) (Obj.rect 0 0 5 5) (Or.inl rfl)⟩

/-- C2 counterexample: the claim says an object lacking `width` and `height`
is never "inside", but with the sizes defaulting to 0 the inclusive bounds
test accepts the mouse sitting exactly on the object's position. -/
theorem c2_point_object_inside_at_exact_position :
    isMouseInside ⟨[], ⟨3, 4, false, false⟩⟩ ⟨3, 4, none, none⟩ = true := by
  norm_num [isMouseInside]

/-- C2 (amended): for an object lacking `width` and `height`, `isMouseInside`
returns `true` exactly when the mouse position coincides with the object's
position, and `false` everywhere else. -/
theorem c2_sizeless_inside_iff_exact_position (s : InputState) (obj : MouseTarget)
    (hw : obj.width = none) (hh : obj.height = none) :
    isMouseInside s obj = true ↔ (s.mouse.x = obj.x ∧ s.mouse.y = obj.y) := by
  unfold isMouseInside
  rw [hw, hh]
  simp only [Option.getD_none, add_zero, Bool.and_eq_true, decide_eq_true_eq]
  constructor
  · rintro ⟨⟨⟨h1, h2⟩, h3⟩, h4⟩
    exact ⟨le_antisymm h2 h1, le_antisymm h4 h3⟩
  · rintro ⟨h1, h2⟩
    exact ⟨⟨⟨le_of_eq h1.symm, le_of_eq h1⟩, le_of_eq h2.symm⟩, le_of_eq h2⟩

/-- C2 witness: with the mouse away from the position of a sizeless object,
`isMouseInside` is `false`. -/
theorem c2_sizeless_inside_iff_exact_position_witness :
    isMouseInside ⟨[], ⟨0, 0, false, false⟩⟩ ⟨3, 4, none, none⟩ = false := by
  have h := c2_sizeless_inside_iff_exact_position ⟨[], ⟨0, 0, false, false⟩⟩
    ⟨3, 4, none, none⟩ rfl rfl
  norm_num at h
  simpa using h

/-- C4 counterexample: adding an object already present and removing it does
not restore the list: `remove` deletes the first occurrence, so the object
moves to the back. -/
theorem c4_add_remove_duplicate_reorders :
    engineRemove (engineAdd [0, 1] 0) 0 ≠ ([0, 1] : List Nat) := by
  decide

/-- Helper: when no element of `l` matches `o`, the first matching index in
`l ++ [o]` is `l.length`. -/
theorem findIdx_append_singleton {α : Type} [DecidableEq α] (l : List α) (o : α)
    (h : o ∉ l) : (l ++ [o]).findIdx (fun a => a = o) = l.length := by
  induction l with
  | nil => simp [List.findIdx_cons]
  | cons a t ih =>
    have ha : a ≠ o := fun hao => h (hao ▸ List.mem_cons_self a t)
    have ht : o ∉ t := fun hot => h (List.mem_cons_of_mem a hot)
    simp [List.findIdx_cons, ha, ih ht]

/-- Helper: erasing the index just past `l` from `l ++ [o]` returns `l`. -/
theorem eraseIdx_append_singleton {α : Type} (l : List α) (o : α) :
    (l ++ [o]).eraseIdx l.length = l := by
  induction l with
  | nil => rfl
  | cons a t ih => simp [List.eraseIdx_cons_succ, ih]

/-- C4 (amended): when the object is not already in the list, `add` followed
by `remove` of the same object restores the pre-add list (and hence the draw
order); when it is already present, `remove` deletes the first occurrence
instead of the newly pushed one, and the contents are reordered. -/
theorem c4_add_remove_restores_when_absent {α : Type} [DecidableEq α]
    (objs : List α) (o : α) (h : o ∉ objs) :
    engineRemove (engineAdd objs o) o = objs := by
  unfold engineAdd engineRemove
  rw [findIdx_append_singleton objs o h]
  have hne : objs.length ≠ (objs ++ [o]).length := by
    simp
  rw [if_neg hne]
  exact eraseIdx_append_singleton objs o

/-- C4 witness: adding then removing a fresh object restores `[1, 2]`. -/
theorem c4_add_remove_restores_when_absent_witness :
    (3 ∉ [1, 2]) ∧ engineRemove (engineAdd [1, 2] 3) 3 = [1, 2] :=
  ⟨by decide, c4_add_remove_restores_when_absent [1, 2] 3 (by decide)⟩

/-- C5: for a button whose callback is set, one `Button.update` call fires
the callback once and consumes the click exactly when a click is pending and
the mouse is inside the bounds; in that case the flag is `false` immediately
after, so a further button updated on the resulting state cannot fire. -/
theorem c5_button_click_fires_and_consumes (b b2 : ButtonT) (inp : InputState)
    (h : b.hasCallback = true) :
    (((buttonUpdate b inp).1 = 1 ∧ (buttonUpdate b inp).2 = consumeClick inp) ↔
      (wasMouseClicked inp = true ∧ isMouseInside inp (buttonTarget b) = true))
    ∧ (wasMouseClicked inp = true → isMouseInside inp (buttonTarget b) = true →
        (buttonUpdate b inp).1 = 1
        ∧ wasMouseClicked (buttonUpdate b inp).2 = false
        ∧ (buttonUpdate b2 (buttonUpdate b inp).2).1 = 0) := by
  by_cases hc : (wasMouseClicked inp && isMouseInside inp (buttonTarget b)) = true
  · have hsplit := Bool.and_eq_true _ _ |>.mp hc
    have hupd : buttonUpdate b inp = (1, consumeClick inp) := by
      simp [buttonUpdate, hc, h]
    have hafter : wasMouseClicked (consumeClick inp) = false := rfl
    constructor
    · rw [hupd]
      exact ⟨fun _ => hsplit, fun _ => ⟨rfl, rfl⟩⟩
    · intro _ _
      rw [hupd]
      refine ⟨rfl, hafter, ?_⟩
      simp [buttonUpdate, wasMouseClicked, consumeClick]
  · have hupd : buttonUpdate b inp = (0, inp) := by
      simp [buttonUpdate, hc]
    have hno : ¬ (wasMouseClicked inp = true ∧ isMouseInside inp (buttonTarget b) = true) :=
      fun hcond => hc ((Bool.and_eq_true _ _).mpr hcond)
    constructor
    · rw [hupd]
      constructor
      · rintro ⟨h1, -⟩
        exact absurd h1 (by norm_num)
      · intro hcond
        exact absurd hcond hno
    · intro hclick hinside
      exact absurd ⟨hclick, hinside⟩ hno

/-- C5 witness: the button at `(0,0,10,10)` with a pending click at `(5,5)`
fires once and leaves `wasMouseClicked` false. -/
theorem c5_button_click_fires_and_consumes_witness :
    (buttonUpdate ⟨0, 0, 10, 10, "Reset", true⟩ ⟨[], ⟨5, 5, true, true⟩⟩).1 = 1
    ∧ wasMouseClicked (buttonUpdate ⟨0, 0, 10, 10, "Reset", true⟩ ⟨[], ⟨5, 5, true, true⟩⟩).2
        = false := by
  have h := (c5_button_click_fires_and_consumes ⟨0, 0, 10, 10, "Reset", true⟩
      ⟨0, 0, 10, 10, "Reset", true⟩ ⟨[], ⟨5, 5, true, true⟩⟩ rfl).2
    rfl (by norm_num [isMouseInside, buttonTarget])
  exact ⟨h.1, h.2.1⟩

/-- Helper: occurrence count of a pair in one inner-loop trace, where the
body records `(i, j)` twice for each `j` in `l`. -/
theorem count_innerLoop (i : Nat) (l : List Nat) (p : Nat × Nat) :
    ((l.flatMap fun j => [(i, j), (i, j)]).count p)
      = 2 * (if p.1 = i then l.count p.2 else 0) := by
  induction l with
  | nil => simp
  | cons j t ih =>
    rw [List.flatMap_cons, List.count_append, ih]
    rcases p with ⟨p1, p2⟩
    by_cases h1 : p1 = i
    · subst h1
      by_cases h2 : p2 = j
      · subst h2
        simp [List.count_cons]
        omega
      · simp [List.count_cons, h2, Ne.symm h2, Prod.ext_iff]
    · simp [List.count_cons, h1, fun hij : (i, j) = (p1, p2) => h1 (congrArg Prod.fst hij).symm, Prod.ext_iff]

/-- Helper: occurrence count of a value in a contiguous range. -/
theorem count_range_from (len : Nat) (s j : Nat) :
    (List.range' s len).count j = if s ≤ j ∧ j < s + len then 1 else 0 := by
  induction len generalizing s with
  | zero =>
    rw [if_neg (by omega)]
    simp
  | succ m ih =>
    rw [List.range'_succ, List.count_cons, ih (s + 1)]
    simp only [beq_iff_eq]
    split_ifs <;> omega

/-- Helper: summing a point mass over an index range. -/
theorem sum_map_range_ite (n : Nat) (k : Nat) (f : Nat → Nat) :
    ((List.range n).map fun i => if k = i then f i else 0).sum
      = if k < n then f k else 0 := by
  induction n with
  | zero => simp
  | succ m ih =>
    rw [List.range_succ, List.map_append, List.sum_append, ih]
    simp only [List.map_cons, List.map_nil, List.sum_cons, List.sum_nil]
    by_cases h : k = m
    · subst h
      rw [if_neg (lt_irrefl k), if_pos rfl, if_pos (Nat.lt_succ_self k)]
      simp
    · rw [if_neg h]
      by_cases hk : k < m
      · rw [if_pos hk, if_pos (Nat.lt_succ_of_lt hk)]
        simp
      · rw [if_neg hk, if_neg (by omega : ¬ k < m + 1)]
        simp

/-- C3 counterexample: with two objects, `Engine.update` evaluates
`checkCollision` on the pair `(0, 1)` twice, not once: the call appears as
the left operand of `&&` in each of the two callback `if` statements. -/
theorem c3_pair_checked_twice_not_once :
    (pairLoopCalls 2).count (0, 1) = 2 ∧ (pairLoopCalls 2).count (0, 1) ≠ 1 := by
  decide

/-- C3 (amended): in one `Engine.update` pass over `n` objects, the dispatcher
is evaluated exactly twice per unordered index pair `(i, j)` with `i < j < n`
(once for each participant's callback test), and on no other argument pair. -/
theorem c3_checkCollision_calls_per_pair (n : Nat) (p : Nat × Nat) :
    (pairLoopCalls n).count p = if p.1 < p.2 ∧ p.2 < n then 2 else 0 := by
  unfold pairLoopCalls
  rw [List.count_flatMap]
  rw [List.map_congr_left (fun i _ => by
    simp only [Function.comp_apply]
    rw [count_innerLoop i (List.range' (i + 1) (n - (i + 1))) p])]
  rw [show ((List.range n).map fun i =>
        2 * (if p.1 = i then (List.range' (i + 1) (n - (i + 1))).count p.2 else 0))
      = (List.range n).map fun i =>
        if p.1 = i then 2 * ((List.range' (i + 1) (n - (i + 1))).count p.2) else 0 by
    apply List.map_congr_left
    intro i _
    split_ifs <;> simp]
  rw [sum_map_range_ite n p.1 fun i => 2 * ((List.range' (i + 1) (n - (i + 1))).count p.2)]
  rw [count_range_from]
  split_ifs <;> omega
